import Mathlib

/-!
Verification of the spacing-resolver subsystem of wsinfer
(`wsinfer/slide_utils.py`), together with a spec-modelled patch-grid
planner and slide reader (whose implementation is outside the provided
sources).

The Python functions are shallowly embedded: slide metadata becomes
explicit data (`OpenSlideProps`, `TiffSeries`, `Slide`), Python floats
are idealised as exact rationals, and raised exceptions become values of
`PyError` carried in `Except`.
-/

deriving instance DecidableEq for Except

/-- The exception outcomes of the spacing code.  `cannotReadSpacing` is the
typed `CannotReadSpacing` error; the others model the untyped Python
exceptions the code can raise: `valueErrorNoneMpp` for the `ValueError` of
`_get_mpp_openslide`, `valueErrorNoSeries` for the `ValueError` of
`_get_biggest_series`, `keyError u` for the `KeyError` of the
`resunit_to_microns` dict lookup on unit `u`, `zeroDivisionError` for a
division by a zero resolution numerator, and `indexError` for an
out-of-range series index. -/
inductive PyError : Type
  | cannotReadSpacing : PyError
  | valueErrorNoneMpp : PyError
  | valueErrorNoSeries : PyError
  | keyError : ℕ → PyError
  | zeroDivisionError : PyError
  | indexError : PyError
  deriving DecidableEq, Repr

/-- OpenSlide `slide.properties` restricted to the two MPP keys.  The outer
`Option` is presence of the key in the mapping; the inner `Option` is the
stored value, where `none` models a Python `None`. -/
structure OpenSlideProps where
  mpp_x : Option (Option ℚ)
  mpp_y : Option (Option ℚ)
  deriving DecidableEq, Repr

/-- Embeds `_get_mpp_openslide`: if both MPP properties are present, return both
values (raising `ValueError` if either stored value is `None`); otherwise
return `(None, None)`. -/
def _get_mpp_openslide (p : OpenSlideProps) :
    Except PyError (Option ℚ × Option ℚ) :=
  match p.mpp_x, p.mpp_y with
  | some vx, some vy =>
    match vx, vy with
    | some x, some y => Except.ok (some x, some y)
    | _, _ => Except.error PyError.valueErrorNoneMpp
  | _, _ => Except.ok (none, none)

/-- One `tifffile` series: its shape, its axes string (one character per
shape entry), and the resolution tags of its first page.  Each resolution
tag is a rational `(numerator, denominator)` pair. -/
structure TiffSeries where
  shape : List ℕ
  axes : List Char
  resolutionUnit : ℕ
  xResolution : ℕ × ℕ
  yResolution : ℕ × ℕ
  deriving DecidableEq, Repr

/-- Embeds `np.prod(s.shape)`: the product of every entry of the shape. -/
def seriesArea (s : TiffSeries) : ℕ := s.shape.prod

/-- Embeds `"X" in s.axes and "Y" in s.axes`. -/
def hasXY (s : TiffSeries) : Prop := 'X' ∈ s.axes ∧ 'Y' ∈ s.axes

instance (s : TiffSeries) : Decidable (hasXY s) :=
  inferInstanceAs (Decidable ('X' ∈ s.axes ∧ 'Y' ∈ s.axes))

/-- The loop of `_get_biggest_series`, returning the final
`(max_area, max_index)` state. -/
def biggestSeriesGo : List TiffSeries → ℕ → ℕ → Option ℕ → ℕ × Option ℕ
  | [], _, maxArea, maxIndex => (maxArea, maxIndex)
  | s :: rest, index, maxArea, maxIndex =>
    if seriesArea s > maxArea ∧ hasXY s then
      biggestSeriesGo rest (index + 1) (seriesArea s) (some index)
    else
      biggestSeriesGo rest (index + 1) maxArea maxIndex

/-- Embeds `_get_biggest_series`: index of the first series attaining the maximal
`np.prod(shape)` among series whose axes contain both X and Y, raising
`ValueError` when no series qualifies. -/
def _get_biggest_series (tif : List TiffSeries) : Except PyError ℕ :=
  match (biggestSeriesGo tif 0 0 none).2 with
  | some j => Except.ok j
  | none => Except.error PyError.valueErrorNoSeries

/-- The `resunit_to_microns` dict: 2 (inch) maps to 25400, 3 (centimeter)
maps to 10000; any other key is absent. -/
def resunit_to_microns (u : ℕ) : Option ℚ :=
  if u = 2 then some 25400 else if u = 3 then some 10000 else none

/-- One axis of `_get_mpp_tiff`: when the tag's denominator is at least
100, compute `unit * denominator / numerator` (raising
`ZeroDivisionError` when the numerator is zero); otherwise yield nothing
for this axis. -/
def axisMpp (unit : ℚ) (res : ℕ × ℕ) : Except PyError (Option ℚ) :=
  if 100 ≤ res.2 then
    if res.1 = 0 then Except.error PyError.zeroDivisionError
    else Except.ok (some (unit * (res.2 : ℚ) / (res.1 : ℚ)))
  else Except.ok none

/-- The body of `_get_mpp_tiff` once the biggest series is in hand: look
the `ResolutionUnit` up in the fixed dict (raising `KeyError` when
absent), then compute both axes. -/
def tiffFromSeries (s : TiffSeries) : Except PyError (Option ℚ × Option ℚ) :=
  match resunit_to_microns s.resolutionUnit with
  | none => Except.error (PyError.keyError s.resolutionUnit)
  | some unit =>
    match axisMpp unit s.xResolution with
    | Except.error e => Except.error e
    | Except.ok um_x =>
      match axisMpp unit s.yResolution with
      | Except.error e => Except.error e
      | Except.ok um_y => Except.ok (um_x, um_y)

/-- Embeds `_get_mpp_tiff`: select the biggest series, then read the resolution
tags of its first page. -/
def _get_mpp_tiff (tif : List TiffSeries) :
    Except PyError (Option ℚ × Option ℚ) :=
  match _get_biggest_series tif with
  | Except.error e => Except.error e
  | Except.ok bi =>
    match tif[bi]? with
    | none => Except.error PyError.indexError
    | some s => tiffFromSeries s

/-- A slide, as far as the spacing code reads it: its OpenSlide MPP
properties and its tifffile series list. -/
structure Slide where
  props : OpenSlideProps
  tif : List TiffSeries
  deriving DecidableEq, Repr

/-- The TIFF-fallback tail of `get_avg_mpp`: average the two tifffile
values when both exist, otherwise raise `CannotReadSpacing`. -/
def avgFromTiff (tif : List TiffSeries) : Except PyError ℚ :=
  match _get_mpp_tiff tif with
  | Except.error e => Except.error e
  | Except.ok (some mx, some my) => Except.ok ((mx + my) / 2)
  | Except.ok _ => Except.error PyError.cannotReadSpacing

/-- Embeds `get_avg_mpp`: average the OpenSlide values when both exist, otherwise
fall back to tifffile, otherwise raise `CannotReadSpacing`. -/
def get_avg_mpp (slide : Slide) : Except PyError ℚ :=
  match _get_mpp_openslide slide.props with
  | Except.error e => Except.error e
  | Except.ok (some mppx, some mppy) => Except.ok ((mppx + mppy) / 2)
  | Except.ok _ => avgFromTiff slide.tif

/-- The spec's wording for C4: area as the product of the spatial (X and
Y) dimensions only. -/
def spatialArea (s : TiffSeries) : ℕ :=
  (((s.axes.zip s.shape).filter (fun p => p.1 == 'X' || p.1 == 'Y')).map
    Prod.snd).prod

/-- Holds when `_get_mpp_openslide` returns both values (as a successful pair of
`some`s). -/
def yieldsBothOS (s : Slide) : Prop :=
  ∃ x y, _get_mpp_openslide s.props = Except.ok (some x, some y)

/-- Holds when `_get_mpp_tiff` returns both values (as a successful pair of
`some`s). -/
def yieldsBothTiff (s : Slide) : Prop :=
  ∃ x y, _get_mpp_tiff s.tif = Except.ok (some x, some y)

/-- A slide with no OpenSlide MPP metadata whose only TIFF series has
`ResolutionUnit = 1`, a key absent from the unit table. -/
def slideUnitOne : Slide :=
  ⟨⟨none, none⟩, [⟨[100, 100], ['Y', 'X'], 1, (4000000, 100), (4000000, 100)⟩]⟩

/-- A slide carrying both OpenSlide MPP properties. -/
def slideBothProps : Slide := ⟨⟨some (some (1/4)), some (some (1/2))⟩, []⟩

/-- A slide with no OpenSlide MPP metadata and an empty TIFF series
list. -/
def slideNoSeries : Slide := ⟨⟨none, none⟩, []⟩

/-- A slide with no OpenSlide MPP metadata and one fully usable TIFF
series (centimeter unit, trusted tags). -/
def slideGoodTiff : Slide :=
  ⟨⟨none, none⟩, [⟨[100, 100], ['Y', 'X'], 3, (4000000, 100), (4000000, 100)⟩]⟩

/-- A series with a non-spatial Z axis of size 2: code area 20000,
spatial area 10000. -/
def zStackSeries : TiffSeries :=
  ⟨[2, 100, 100], ['Z', 'Y', 'X'], 3, (4000000, 100), (4000000, 100)⟩

/-- A purely spatial series of larger spatial area 14400 but smaller
total element count. -/
def flatSeries : TiffSeries :=
  ⟨[120, 120], ['Y', 'X'], 3, (4000000, 100), (4000000, 100)⟩

/-- A slide with only the vertical OpenSlide property and a TIFF series
whose `ResolutionUnit` is 7. -/
def slideUnitSeven : Slide :=
  ⟨⟨none, some (some 1)⟩, [⟨[50, 50], ['Y', 'X'], 7, (200, 100), (200, 100)⟩]⟩

/-- A slide with only the horizontal OpenSlide property and one 2D TIFF
series of zero area. -/
def slideZeroArea : Slide :=
  ⟨⟨some (some 1), none⟩, [⟨[0, 5], ['Y', 'X'], 2, (1, 1), (1, 1)⟩]⟩

/-- A slide with no OpenSlide MPP metadata whose series has an untrusted
X tag (denominator 1). -/
def slideUntrustedX : Slide :=
  ⟨⟨none, none⟩, [⟨[80, 80], ['Y', 'X'], 3, (5, 1), (4000000, 100)⟩]⟩

/-- The concrete TIFF series list for the C6 witness: centimeter unit,
both tags 4000000/100 = 40000 pixels per centimeter. -/
def cmTif : List TiffSeries :=
  [⟨[100, 100], ['Y', 'X'], 3, (4000000, 100), (4000000, 100)⟩]

/-- A slide carrying only the horizontal OpenSlide MPP property, plus a
usable TIFF series. -/
def slideOnlyX : Slide :=
  ⟨⟨some (some (1/4)), none⟩,
   [⟨[100, 100], ['Y', 'X'], 3, (4000000, 100), (4000000, 100)⟩]⟩

/-- Modelled from the spec: the Patch Grid Planner's effective patch size
at native resolution, `round(patch_size_px * target_spacing_um /
native_mpp)` — the planner's implementation is not among the provided
sources. -/
def effectivePatchSize (patch_size_px : ℕ)
    (target_spacing native_mpp : ℚ) : ℤ :=
  round ((patch_size_px : ℚ) * target_spacing / native_mpp)

/-- Modelled from the spec: raster origins along one axis — multiples of
`step` starting at 0, stepping while the origin is `< dim`, i.e.
`i * step` for `i < ⌈dim / step⌉` — the planner's implementation is not
among the provided sources. -/
def gridOrigins1D (dim step : ℕ) : List ℕ :=
  (List.range ((dim + step - 1) / step)).map (fun i => i * step)

/-- Modelled from the spec: the full raster grid, outer loop over one
axis, inner loop over the other. -/
def gridOrigins2D (w h step : ℕ) : List (ℕ × ℕ) :=
  (gridOrigins1D w step).flatMap
    (fun x => (gridOrigins1D h step).map (fun y => (x, y)))

/-- Modelled from the spec: `read_region` returns a buffer of exactly
`width × height` pixels; pixels beyond the slide bounds are filled with a
fixed background value, never cropped — the readers' implementation is
not among the provided sources. -/
def readRegion (slideW slideH x y w h : ℕ) (img : ℕ → ℕ → ℕ) (bg : ℕ) :
    List (List ℕ) :=
  (List.range h).map (fun r =>
    (List.range w).map (fun c =>
      if x + c < slideW ∧ y + r < slideH then img (x + c) (y + r) else bg))

/-- The helper `_get_mpp_openslide` can only raise the `ValueError` about `None` MPP
values. -/
theorem os_error_eq (p : OpenSlideProps) (e : PyError)
    (h : _get_mpp_openslide p = Except.error e) :
    e = PyError.valueErrorNoneMpp := by
  obtain ⟨mx, my⟩ := p
  unfold _get_mpp_openslide at h
  cases mx with
  | none => injection h
  | some vx =>
    cases my with
    | none => injection h
    | some vy =>
      cases vx with
      | none =>
        injection h with h'
        exact h'.symm
      | some x =>
        cases vy with
        | none =>
          injection h with h'
          exact h'.symm
        | some y => injection h

/-- The axis computation can only raise `ZeroDivisionError`. -/
theorem axisMpp_error (unit : ℚ) (res : ℕ × ℕ) (e : PyError)
    (h : axisMpp unit res = Except.error e) :
    e = PyError.zeroDivisionError := by
  unfold axisMpp at h
  by_cases h1 : 100 ≤ res.2
  · rw [if_pos h1] at h
    by_cases h2 : res.1 = 0
    · rw [if_pos h2] at h
      injection h with h'
      exact h'.symm
    · rw [if_neg h2] at h
      injection h
  · rw [if_neg h1] at h
    injection h

/-- The successful outcomes of `axisMpp`: a value only for a trusted
denominator (at least 100) and a nonzero numerator, nothing for an
untrusted one. -/
theorem axisMpp_ok (unit : ℚ) (res : ℕ × ℕ) (v : Option ℚ)
    (h : axisMpp unit res = Except.ok v) :
    (100 ≤ res.2 →
      res.1 ≠ 0 ∧ v = some (unit * (res.2 : ℚ) / (res.1 : ℚ))) ∧
    (res.2 < 100 → v = none) := by
  unfold axisMpp at h
  by_cases h1 : 100 ≤ res.2
  · rw [if_pos h1] at h
    by_cases h2 : res.1 = 0
    · rw [if_pos h2] at h
      injection h
    · rw [if_neg h2] at h
      injection h with h'
      refine ⟨fun _ => ⟨h2, h'.symm⟩, fun hlt => absurd h1 (by omega)⟩
  · rw [if_neg h1] at h
    injection h with h'
    exact ⟨fun hge => absurd hge h1, fun _ => h'.symm⟩

/-- The axis computation on a trusted tag with nonzero numerator. -/
theorem axisMpp_value (unit : ℚ) (res : ℕ × ℕ)
    (hd : 100 ≤ res.2) (hn : res.1 ≠ 0) :
    axisMpp unit res = Except.ok (some (unit * (res.2 : ℚ) / (res.1 : ℚ))) := by
  unfold axisMpp
  rw [if_pos hd, if_neg hn]

/-- The axis computation yields nothing for an untrusted denominator. -/
theorem axisMpp_untrusted (unit : ℚ) (res : ℕ × ℕ) (hd : res.2 < 100) :
    axisMpp unit res = Except.ok none := by
  unfold axisMpp
  rw [if_neg (by omega)]

/-- The running maximum of the `_get_biggest_series` loop never
decreases. -/
theorem biggestSeriesGo_fst_ge (l : List TiffSeries) :
    ∀ (index maxArea : ℕ) (maxIndex : Option ℕ),
      maxArea ≤ (biggestSeriesGo l index maxArea maxIndex).1 := by
  induction l with
  | nil =>
    intro index maxArea maxIndex
    exact le_refl _
  | cons s rest ih =>
    intro index maxArea maxIndex
    by_cases hc : seriesArea s > maxArea ∧ hasXY s
    · simp only [biggestSeriesGo, if_pos hc]
      exact le_trans (le_of_lt hc.1) (ih _ _ _)
    · simp only [biggestSeriesGo, if_neg hc]
      exact ih _ _ _

/-- The final running maximum dominates the area of every qualifying
series of the list. -/
theorem biggestSeriesGo_fst_ub (l : List TiffSeries) :
    ∀ (index maxArea : ℕ) (maxIndex : Option ℕ) (k : ℕ) (sk : TiffSeries),
      l[k]? = some sk → hasXY sk →
      seriesArea sk ≤ (biggestSeriesGo l index maxArea maxIndex).1 := by
  induction l with
  | nil =>
    intro index maxArea maxIndex k sk hget
    simp at hget
  | cons s rest ih =>
    intro index maxArea maxIndex k sk hget hxy
    cases k with
    | zero =>
      rw [List.getElem?_cons_zero] at hget
      injection hget with hs
      subst hs
      by_cases hc : seriesArea s > maxArea ∧ hasXY s
      · simp only [biggestSeriesGo, if_pos hc]
        exact biggestSeriesGo_fst_ge rest _ _ _
      · simp only [biggestSeriesGo, if_neg hc]
        have hle : seriesArea s ≤ maxArea := by
          by_contra hgt
          exact hc ⟨by omega, hxy⟩
        exact le_trans hle (biggestSeriesGo_fst_ge rest _ _ _)
    | succ k =>
      rw [List.getElem?_cons_succ] at hget
      by_cases hc : seriesArea s > maxArea ∧ hasXY s
      · simp only [biggestSeriesGo, if_pos hc]
        exact ih _ _ _ k sk hget hxy
      · simp only [biggestSeriesGo, if_neg hc]
        exact ih _ _ _ k sk hget hxy

/-- Full characterisation of the `_get_biggest_series` loop: either the
state is returned unchanged, or the returned index points at the first
series that attains the final running maximum, which strictly exceeds the
incoming maximum and the area of every earlier qualifying series. -/
theorem biggestSeriesGo_spec (l : List TiffSeries) :
    ∀ (index maxArea : ℕ) (maxIndex : Option ℕ),
      ((biggestSeriesGo l index maxArea maxIndex).2 = maxIndex ∧
        (biggestSeriesGo l index maxArea maxIndex).1 = maxArea) ∨
      ∃ k sk, l[k]? = some sk ∧
        (biggestSeriesGo l index maxArea maxIndex).2 = some (index + k) ∧
        hasXY sk ∧
        seriesArea sk = (biggestSeriesGo l index maxArea maxIndex).1 ∧
        maxArea < seriesArea sk ∧
        ∀ k' sk', k' < k → l[k']? = some sk' → hasXY sk' →
          seriesArea sk' < seriesArea sk := by
  induction l with
  | nil =>
    intro index maxArea maxIndex
    exact Or.inl ⟨rfl, rfl⟩
  | cons s rest ih =>
    intro index maxArea maxIndex
    by_cases hc : seriesArea s > maxArea ∧ hasXY s
    · simp only [biggestSeriesGo, if_pos hc]
      rcases ih (index + 1) (seriesArea s) (some index) with
        ⟨h2, h1⟩ | ⟨k, sk, hget, h2, hxy, harea, hgt, hstrict⟩
      · refine Or.inr ⟨0, s, List.getElem?_cons_zero, ?_, hc.2, ?_, hc.1, ?_⟩
        · rw [h2, Nat.add_zero]
        · exact h1.symm
        · intro k' sk' hk'
          omega
      · refine Or.inr ⟨k + 1, sk, ?_, ?_, hxy, harea, ?_, ?_⟩
        · rw [List.getElem?_cons_succ]
          exact hget
        · rw [h2]
          congr 1
          omega
        · exact lt_trans hc.1 hgt
        · intro k' sk' hk' hget' hxy'
          cases k' with
          | zero =>
            rw [List.getElem?_cons_zero] at hget'
            injection hget' with hs
            subst hs
            exact hgt
          | succ k' =>
            rw [List.getElem?_cons_succ] at hget'
            exact hstrict k' sk' (by omega) hget' hxy'
    · simp only [biggestSeriesGo, if_neg hc]
      rcases ih (index + 1) maxArea maxIndex with
        ⟨h2, h1⟩ | ⟨k, sk, hget, h2, hxy, harea, hgt, hstrict⟩
      · exact Or.inl ⟨h2, h1⟩
      · refine Or.inr ⟨k + 1, sk, ?_, ?_, hxy, harea, hgt, ?_⟩
        · rw [List.getElem?_cons_succ]
          exact hget
        · rw [h2]
          congr 1
          omega
        · intro k' sk' hk' hget' hxy'
          cases k' with
          | zero =>
            rw [List.getElem?_cons_zero] at hget'
            injection hget' with hs
            subst hs
            have hle : seriesArea s ≤ maxArea := by
              by_contra hgt'
              exact hc ⟨by omega, hxy'⟩
            omega
          | succ k' =>
            rw [List.getElem?_cons_succ] at hget'
            exact hstrict k' sk' (by omega) hget' hxy'

/-- When every series either lacks an X or Y axis or has zero area, the
loop leaves its state untouched. -/
theorem biggestSeriesGo_all_bad (l : List TiffSeries) :
    ∀ (index maxArea : ℕ) (maxIndex : Option ℕ),
      (∀ sr ∈ l, ¬hasXY sr ∨ seriesArea sr = 0) →
      biggestSeriesGo l index maxArea maxIndex = (maxArea, maxIndex) := by
  induction l with
  | nil =>
    intro index maxArea maxIndex _
    rfl
  | cons s rest ih =>
    intro index maxArea maxIndex hall
    have hs := hall s (List.mem_cons_self s rest)
    have hcond : ¬(seriesArea s > maxArea ∧ hasXY s) := by
      rcases hs with h | h
      · exact fun hc => h hc.2
      · intro hc
        rw [h] at hc
        exact Nat.not_lt_zero maxArea hc.1
    simp only [biggestSeriesGo, if_neg hcond]
    exact ih _ _ _ (fun sr hm => hall sr (List.mem_cons_of_mem s hm))

/-- What a successful `_get_biggest_series` returns: the index of a
qualifying series of positive area whose area equals the loop's final
maximum, strictly above every earlier qualifying series. -/
theorem biggest_series_ok (tif : List TiffSeries) (j : ℕ)
    (h : _get_biggest_series tif = Except.ok j) :
    ∃ sj, tif[j]? = some sj ∧ hasXY sj ∧ 0 < seriesArea sj ∧
      seriesArea sj = (biggestSeriesGo tif 0 0 none).1 ∧
      ∀ k sk, k < j → tif[k]? = some sk → hasXY sk →
        seriesArea sk < seriesArea sj := by
  unfold _get_biggest_series at h
  rcases biggestSeriesGo_spec tif 0 0 none with
    ⟨h2, _⟩ | ⟨k, sk, hget, h2, hxy, harea, hgt, hstrict⟩
  · rw [h2] at h
    injection h
  · rw [h2] at h
    injection h with hj
    rw [Nat.zero_add] at hj
    subst hj
    exact ⟨sk, hget, hxy, hgt, harea, hstrict⟩

/-- The helper `_get_biggest_series` can only raise the `ValueError` about a missing
qualifying series. -/
theorem biggest_series_error_eq (tif : List TiffSeries) (e : PyError)
    (h : _get_biggest_series tif = Except.error e) :
    e = PyError.valueErrorNoSeries := by
  unfold _get_biggest_series at h
  cases hgo : (biggestSeriesGo tif 0 0 none).2 with
  | none =>
    rw [hgo] at h
    injection h with h'
    exact h'.symm
  | some j =>
    rw [hgo] at h
    injection h

/-- Once the biggest series is known, `_get_mpp_tiff` is the tag
computation on that series. -/
theorem _get_mpp_tiff_eq (tif : List TiffSeries) (j : ℕ) (sj : TiffSeries)
    (hj : _get_biggest_series tif = Except.ok j)
    (hsj : tif[j]? = some sj) :
    _get_mpp_tiff tif = tiffFromSeries sj := by
  unfold _get_mpp_tiff
  simp only [hj, hsj]

/-- The tag computation can only raise `KeyError` (unknown unit) or
`ZeroDivisionError` (zero numerator). -/
theorem tiffFromSeries_error (s : TiffSeries) (e : PyError)
    (h : tiffFromSeries s = Except.error e) :
    (∃ u, e = PyError.keyError u) ∨ e = PyError.zeroDivisionError := by
  unfold tiffFromSeries at h
  cases hu : resunit_to_microns s.resolutionUnit with
  | none =>
    simp only [hu] at h
    injection h with h'
    exact Or.inl ⟨s.resolutionUnit, h'.symm⟩
  | some unit =>
    simp only [hu] at h
    cases hx : axisMpp unit s.xResolution with
    | error ex =>
      have hz := axisMpp_error unit s.xResolution ex hx
      subst hz
      simp only [hx] at h
      injection h with h'
      exact Or.inr h'.symm
    | ok ux =>
      simp only [hx] at h
      cases hy : axisMpp unit s.yResolution with
      | error ey =>
        have hz := axisMpp_error unit s.yResolution ey hy
        subst hz
        simp only [hy] at h
        injection h with h'
        exact Or.inr h'.symm
      | ok uy =>
        simp only [hy] at h
        injection h

/-- The helper `_get_mpp_tiff` can only raise the series `ValueError`, a `KeyError`,
or `ZeroDivisionError`; in particular the out-of-range `IndexError` is
impossible. -/
theorem tiff_error_classify (tif : List TiffSeries) (e : PyError)
    (h : _get_mpp_tiff tif = Except.error e) :
    e = PyError.valueErrorNoSeries ∨ (∃ u, e = PyError.keyError u) ∨
      e = PyError.zeroDivisionError := by
  unfold _get_mpp_tiff at h
  cases hb : _get_biggest_series tif with
  | error e' =>
    have hv := biggest_series_error_eq tif e' hb
    subst hv
    simp only [hb] at h
    injection h with h'
    exact Or.inl h'.symm
  | ok j =>
    simp only [hb] at h
    obtain ⟨sj, hsj, -⟩ := biggest_series_ok tif j hb
    simp only [hsj] at h
    exact Or.inr (tiffFromSeries_error sj e h)

/-- When OpenSlide reports both values, `get_avg_mpp` is their mean. -/
theorem get_avg_mpp_os_some (s : Slide) (x y : ℚ)
    (h : _get_mpp_openslide s.props = Except.ok (some x, some y)) :
    get_avg_mpp s = Except.ok ((x + y) / 2) := by
  unfold get_avg_mpp
  rw [h]

/-- When OpenSlide lacks an axis, `get_avg_mpp` is the TIFF fallback. -/
theorem get_avg_mpp_os_fallback (s : Slide) (pr : Option ℚ × Option ℚ)
    (h : _get_mpp_openslide s.props = Except.ok pr)
    (hpr : pr.1 = none ∨ pr.2 = none) :
    get_avg_mpp s = avgFromTiff s.tif := by
  unfold get_avg_mpp
  rw [h]
  obtain ⟨a, b⟩ := pr
  rcases hpr with h' | h'
  · simp only at h'
    subst h'
    cases b <;> rfl
  · simp only at h'
    subst h'
    cases a <;> rfl

/-- When tifffile yields both values, the fallback is their mean. -/
theorem avgFromTiff_some (tif : List TiffSeries) (x y : ℚ)
    (h : _get_mpp_tiff tif = Except.ok (some x, some y)) :
    avgFromTiff tif = Except.ok ((x + y) / 2) := by
  unfold avgFromTiff
  rw [h]

/-- When tifffile lacks an axis, the fallback raises
`CannotReadSpacing`. -/
theorem avgFromTiff_notboth (tif : List TiffSeries) (pr : Option ℚ × Option ℚ)
    (h : _get_mpp_tiff tif = Except.ok pr)
    (hpr : pr.1 = none ∨ pr.2 = none) :
    avgFromTiff tif = Except.error PyError.cannotReadSpacing := by
  unfold avgFromTiff
  rw [h]
  obtain ⟨a, b⟩ := pr
  rcases hpr with h' | h'
  · simp only at h'
    subst h'
    cases b <;> rfl
  · simp only at h'
    subst h'
    cases a <;> rfl

/-- Given the OpenSlide helper's actual result, which pairs witness
`yieldsBothOS`. -/
theorem yieldsBothOS_iff (s : Slide) (pr : Option ℚ × Option ℚ)
    (h : _get_mpp_openslide s.props = Except.ok pr) :
    yieldsBothOS s ↔ ∃ x y, pr = (some x, some y) := by
  unfold yieldsBothOS
  constructor
  · rintro ⟨x, y, hxy⟩
    rw [h] at hxy
    injection hxy with h'
    exact ⟨x, y, h'⟩
  · rintro ⟨x, y, rfl⟩
    exact ⟨x, y, h⟩

/-- Given the tifffile helper's actual result, which pairs witness
`yieldsBothTiff`. -/
theorem yieldsBothTiff_iff (s : Slide) (pr : Option ℚ × Option ℚ)
    (h : _get_mpp_tiff s.tif = Except.ok pr) :
    yieldsBothTiff s ↔ ∃ x y, pr = (some x, some y) := by
  unfold yieldsBothTiff
  constructor
  · rintro ⟨x, y, hxy⟩
    rw [h] at hxy
    injection hxy with h'
    exact ⟨x, y, h'⟩
  · rintro ⟨x, y, rfl⟩
    exact ⟨x, y, h⟩

/-- All possible outcomes of the TIFF fallback tail of `get_avg_mpp`. -/
theorem avgFromTiff_outcomes (tif : List TiffSeries) :
    (∃ q, avgFromTiff tif = Except.ok q) ∨
    avgFromTiff tif = Except.error PyError.cannotReadSpacing ∨
    avgFromTiff tif = Except.error PyError.valueErrorNoSeries ∨
    (∃ u, avgFromTiff tif = Except.error (PyError.keyError u)) ∨
    avgFromTiff tif = Except.error PyError.zeroDivisionError := by
  cases ht : _get_mpp_tiff tif with
  | error e =>
    have herr : avgFromTiff tif = Except.error e := by
      unfold avgFromTiff
      simp only [ht]
    rcases tiff_error_classify tif e ht with h | ⟨u, h⟩ | h
    · subst h
      exact Or.inr (Or.inr (Or.inl herr))
    · subst h
      exact Or.inr (Or.inr (Or.inr (Or.inl ⟨u, herr⟩)))
    · subst h
      exact Or.inr (Or.inr (Or.inr (Or.inr herr)))
  | ok pr =>
    obtain ⟨mx, my⟩ := pr
    cases mx with
    | some x =>
      cases my with
      | some y => exact Or.inl ⟨(x + y) / 2, avgFromTiff_some tif x y ht⟩
      | none =>
        exact Or.inr (Or.inl (avgFromTiff_notboth tif (some x, none) ht
          (Or.inr rfl)))
    | none =>
      exact Or.inr (Or.inl (avgFromTiff_notboth tif (none, my) ht
        (Or.inl rfl)))

/-- C1 (amended): `get_avg_mpp` returns an average MPP value or fails
with the typed `CannotReadSpacing`, or with one of the untyped errors the
helpers can raise — `ValueError` (a `None` MPP property value, or no
qualifying TIFF series), `KeyError` (a `ResolutionUnit` outside the fixed
unit table), or `ZeroDivisionError` (a zero resolution numerator).  No
other outcome — in particular no `IndexError` — is possible. -/
theorem C1_avg_mpp_outcomes (s : Slide) :
    (∃ q, get_avg_mpp s = Except.ok q) ∨
    get_avg_mpp s = Except.error PyError.cannotReadSpacing ∨
    get_avg_mpp s = Except.error PyError.valueErrorNoneMpp ∨
    get_avg_mpp s = Except.error PyError.valueErrorNoSeries ∨
    (∃ u, get_avg_mpp s = Except.error (PyError.keyError u)) ∨
    get_avg_mpp s = Except.error PyError.zeroDivisionError := by
  cases hos : _get_mpp_openslide s.props with
  | error e =>
    have he := os_error_eq s.props e hos
    subst he
    have herr : get_avg_mpp s = Except.error PyError.valueErrorNoneMpp := by
      unfold get_avg_mpp
      simp only [hos]
    exact Or.inr (Or.inr (Or.inl herr))
  | ok pr =>
    obtain ⟨mx, my⟩ := pr
    cases mx with
    | some x =>
      cases my with
      | some y => exact Or.inl ⟨(x + y) / 2, get_avg_mpp_os_some s x y hos⟩
      | none =>
        have hfb := get_avg_mpp_os_fallback s (some x, none) hos (Or.inr rfl)
        rw [hfb]
        have := avgFromTiff_outcomes s.tif
        tauto
    | none =>
      have hfb := get_avg_mpp_os_fallback s (none, my) hos (Or.inl rfl)
      rw [hfb]
      have := avgFromTiff_outcomes s.tif
      tauto

/-- C1 counterexample: on `slideUnitOne`, `get_avg_mpp` neither returns a
value nor raises the typed spacing error — it raises the untyped
`KeyError` of the unit-table lookup. -/
theorem C1_counterexample :
    ¬((∃ q, get_avg_mpp slideUnitOne = Except.ok q) ∨
      get_avg_mpp slideUnitOne = Except.error PyError.cannotReadSpacing) := by
  have h : get_avg_mpp slideUnitOne = Except.error (PyError.keyError 1) := by
    decide
  rintro (⟨q, hq⟩ | hq)
  · rw [h] at hq
    injection hq
  · rw [h] at hq
    injection hq with h'
    injection h'

/-- C2: when the OpenSlide metadata holds both MPP properties with usable
values, `get_avg_mpp` returns their arithmetic mean; the TIFF fallback is
not consulted — the result is the same whatever the TIFF series are. -/
theorem C2_openslide_mean (s : Slide) (x y : ℚ)
    (hx : s.props.mpp_x = some (some x))
    (hy : s.props.mpp_y = some (some y)) :
    get_avg_mpp s = Except.ok ((x + y) / 2) ∧
    ∀ tifAlt : List TiffSeries,
      get_avg_mpp ⟨s.props, tifAlt⟩ = Except.ok ((x + y) / 2) := by
  have hos : _get_mpp_openslide s.props = Except.ok (some x, some y) := by
    unfold _get_mpp_openslide
    rw [hx, hy]
  exact ⟨get_avg_mpp_os_some s x y hos,
    fun tifAlt => get_avg_mpp_os_some ⟨s.props, tifAlt⟩ x y hos⟩

/-- Witness for C2 at a concrete slide. -/
theorem C2_witness :
    get_avg_mpp slideBothProps = Except.ok ((1/4 + 1/2) / 2) :=
  (C2_openslide_mean slideBothProps (1/4) (1/2) rfl rfl).1

/-- The C3 case analysis once `get_avg_mpp` has fallen through to the
TIFF path and the tifffile helper returns normally. -/
theorem fallback_failure_iff (s : Slide) (tr : Option ℚ × Option ℚ)
    (h2 : _get_mpp_tiff s.tif = Except.ok tr)
    (hfb : get_avg_mpp s = avgFromTiff s.tif)
    (hnos : ¬yieldsBothOS s) :
    (get_avg_mpp s = Except.error PyError.cannotReadSpacing ↔
      (¬yieldsBothOS s ∧ ¬yieldsBothTiff s)) ∧
    ((yieldsBothOS s ∨ yieldsBothTiff s) →
      ∃ q, get_avg_mpp s = Except.ok q) := by
  obtain ⟨tx, ty⟩ := tr
  have htIff := yieldsBothTiff_iff s (tx, ty) h2
  cases tx with
  | some mx =>
    cases ty with
    | some my =>
      have hres : get_avg_mpp s = Except.ok ((mx + my) / 2) := by
        rw [hfb]
        exact avgFromTiff_some s.tif mx my h2
      have hyt : yieldsBothTiff s := htIff.mpr ⟨mx, my, rfl⟩
      constructor
      · constructor
        · intro hc
          rw [hres] at hc
          injection hc
        · rintro ⟨-, hno⟩
          exact absurd hyt hno
      · intro _
        exact ⟨(mx + my) / 2, hres⟩
    | none =>
      have hres : get_avg_mpp s = Except.error PyError.cannotReadSpacing := by
        rw [hfb]
        exact avgFromTiff_notboth s.tif (some mx, none) h2 (Or.inr rfl)
      have hnot : ¬yieldsBothTiff s := by
        rw [htIff]
        rintro ⟨x', y', hxy⟩
        injection hxy with ha hb
        injection hb
      refine ⟨⟨fun _ => ⟨hnos, hnot⟩, fun _ => hres⟩, ?_⟩
      rintro (h | h)
      · exact absurd h hnos
      · exact absurd h hnot
  | none =>
    have hres : get_avg_mpp s = Except.error PyError.cannotReadSpacing := by
      rw [hfb]
      exact avgFromTiff_notboth s.tif (none, ty) h2 (Or.inl rfl)
    have hnot : ¬yieldsBothTiff s := by
      rw [htIff]
      rintro ⟨x', y', hxy⟩
      injection hxy with ha hb
      injection ha
    refine ⟨⟨fun _ => ⟨hnos, hnot⟩, fun _ => hres⟩, ?_⟩
    rintro (h | h)
    · exact absurd h hnos
    · exact absurd h hnot

/-- C3 (amended): provided both metadata helpers return normally (no
untyped exception is raised), `get_avg_mpp` raises the typed spacing
error exactly when neither helper yields both axes, and returns a value
whenever one of them does. -/
theorem C3_failure_iff (s : Slide) (osr tr : Option ℚ × Option ℚ)
    (h1 : _get_mpp_openslide s.props = Except.ok osr)
    (h2 : _get_mpp_tiff s.tif = Except.ok tr) :
    (get_avg_mpp s = Except.error PyError.cannotReadSpacing ↔
      (¬yieldsBothOS s ∧ ¬yieldsBothTiff s)) ∧
    ((yieldsBothOS s ∨ yieldsBothTiff s) →
      ∃ q, get_avg_mpp s = Except.ok q) := by
  obtain ⟨ox, oy⟩ := osr
  have hosIff := yieldsBothOS_iff s (ox, oy) h1
  cases ox with
  | some x =>
    cases oy with
    | some y =>
      have hres := get_avg_mpp_os_some s x y h1
      have hyos : yieldsBothOS s := hosIff.mpr ⟨x, y, rfl⟩
      constructor
      · constructor
        · intro hc
          rw [hres] at hc
          injection hc
        · rintro ⟨hno, -⟩
          exact absurd hyos hno
      · intro _
        exact ⟨(x + y) / 2, hres⟩
    | none =>
      have hfb := get_avg_mpp_os_fallback s (some x, none) h1 (Or.inr rfl)
      have hnos : ¬yieldsBothOS s := by
        rw [hosIff]
        rintro ⟨x', y', hxy⟩
        injection hxy with ha hb
        injection hb
      exact fallback_failure_iff s tr h2 hfb hnos
  | none =>
    have hfb := get_avg_mpp_os_fallback s (none, oy) h1 (Or.inl rfl)
    have hnos : ¬yieldsBothOS s := by
      rw [hosIff]
      rintro ⟨x', y', hxy⟩
      injection hxy with ha hb
      injection ha
    exact fallback_failure_iff s tr h2 hfb hnos

/-- C3 counterexample: on `slideNoSeries` neither path yields both axes,
yet `get_avg_mpp` raises the untyped series `ValueError`, not the typed
spacing error — the claimed equivalence fails. -/
theorem C3_counterexample :
    ¬(get_avg_mpp slideNoSeries = Except.error PyError.cannotReadSpacing ↔
      (¬yieldsBothOS slideNoSeries ∧ ¬yieldsBothTiff slideNoSeries)) := by
  have h : get_avg_mpp slideNoSeries =
      Except.error PyError.valueErrorNoSeries := by decide
  intro hiff
  have hno : ¬yieldsBothOS slideNoSeries ∧ ¬yieldsBothTiff slideNoSeries := by
    constructor
    · rintro ⟨x, y, hxy⟩
      have hν : _get_mpp_openslide slideNoSeries.props =
          Except.ok (none, none) := rfl
      rw [hν] at hxy
      injection hxy with h'
      injection h' with ha hb
      injection ha
    · rintro ⟨x, y, hxy⟩
      have hν : _get_mpp_tiff slideNoSeries.tif =
          Except.error PyError.valueErrorNoSeries := rfl
      rw [hν] at hxy
      injection hxy
  have hc := hiff.mpr hno
  rw [h] at hc
  injection hc with h'
  injection h'

/-- Witness for C3 at a concrete slide on which both helpers return
normally. -/
theorem C3_witness :
    (get_avg_mpp slideGoodTiff = Except.error PyError.cannotReadSpacing ↔
      (¬yieldsBothOS slideGoodTiff ∧ ¬yieldsBothTiff slideGoodTiff)) ∧
    ((yieldsBothOS slideGoodTiff ∨ yieldsBothTiff slideGoodTiff) →
      ∃ q, get_avg_mpp slideGoodTiff = Except.ok q) :=
  C3_failure_iff slideGoodTiff (none, none) (some (1/4), some (1/4)) rfl
    (by norm_num [slideGoodTiff, _get_mpp_tiff, _get_biggest_series,
      biggestSeriesGo, tiffFromSeries, resunit_to_microns, axisMpp,
      seriesArea, hasXY])

/-- C4 (amended): a successful `_get_biggest_series` returns the index of
a series that has both X and Y axes and positive area, whose
`np.prod(shape)` — the product of ALL dimensions, not only the spatial
ones — is maximal among such series, earliest occurrence winning ties. -/
theorem C4_biggest_series (tif : List TiffSeries) (j : ℕ)
    (h : _get_biggest_series tif = Except.ok j) :
    ∃ sj, tif[j]? = some sj ∧ hasXY sj ∧ 0 < seriesArea sj ∧
      (∀ (k : ℕ) (sk : TiffSeries), tif[k]? = some sk → hasXY sk →
        seriesArea sk ≤ seriesArea sj) ∧
      (∀ (k : ℕ) (sk : TiffSeries), k < j → tif[k]? = some sk → hasXY sk →
        seriesArea sk < seriesArea sj) := by
  obtain ⟨sj, hsj, hxy, hpos, hmax, hstrict⟩ := biggest_series_ok tif j h
  refine ⟨sj, hsj, hxy, hpos, ?_, hstrict⟩
  intro k sk hget hk
  rw [hmax]
  exact biggestSeriesGo_fst_ub tif 0 0 none k sk hget hk

/-- C4 counterexample: the code selects series 0 although the qualifying
series 1 has the strictly largest spatial-dimension area, so the selected
series is not the largest by product of spatial dimensions. -/
theorem C4_counterexample :
    _get_biggest_series [zStackSeries, flatSeries] = Except.ok 0 ∧
    hasXY flatSeries ∧
    spatialArea zStackSeries < spatialArea flatSeries := by decide

/-- Witness for C4 (amended) at the concrete two-series list. -/
theorem C4_witness :
    ∃ sj, [zStackSeries, flatSeries][0]? = some sj ∧ hasXY sj ∧
      0 < seriesArea sj ∧
      (∀ (k : ℕ) (sk : TiffSeries),
        [zStackSeries, flatSeries][k]? = some sk → hasXY sk →
        seriesArea sk ≤ seriesArea sj) ∧
      (∀ (k : ℕ) (sk : TiffSeries),
        k < 0 → [zStackSeries, flatSeries][k]? = some sk → hasXY sk →
        seriesArea sk < seriesArea sj) :=
  C4_biggest_series [zStackSeries, flatSeries] 0 (by decide)

/-- C9: when the fallback is reached and the selected series'
`ResolutionUnit` is neither 2 nor 3, `get_avg_mpp` propagates the untyped
`KeyError` of the unit-table lookup instead of the typed spacing
error. -/
theorem C9_unit_keyerror (s : Slide) (j : ℕ) (sj : TiffSeries)
    (hos : _get_mpp_openslide s.props = Except.ok (none, none))
    (hj : _get_biggest_series s.tif = Except.ok j)
    (hsj : s.tif[j]? = some sj)
    (h2 : sj.resolutionUnit ≠ 2) (h3 : sj.resolutionUnit ≠ 3) :
    get_avg_mpp s = Except.error (PyError.keyError sj.resolutionUnit) ∧
    PyError.keyError sj.resolutionUnit ≠ PyError.cannotReadSpacing := by
  have hru : resunit_to_microns sj.resolutionUnit = none := by
    unfold resunit_to_microns
    rw [if_neg h2, if_neg h3]
  have htiff : _get_mpp_tiff s.tif =
      Except.error (PyError.keyError sj.resolutionUnit) := by
    rw [_get_mpp_tiff_eq s.tif j sj hj hsj]
    unfold tiffFromSeries
    simp only [hru]
  have hfb := get_avg_mpp_os_fallback s (none, none) hos (Or.inl rfl)
  constructor
  · rw [hfb]
    unfold avgFromTiff
    simp only [htiff]
  · intro hc
    injection hc

/-- Witness for C9 at a concrete slide. -/
theorem C9_witness :
    get_avg_mpp slideUnitSeven = Except.error (PyError.keyError 7) ∧
    PyError.keyError 7 ≠ PyError.cannotReadSpacing :=
  C9_unit_keyerror slideUnitSeven 0
    ⟨[50, 50], ['Y', 'X'], 7, (200, 100), (200, 100)⟩
    rfl (by decide) rfl (by decide) (by decide)

/-- C10: when the fallback is reached and no TIFF series has both an X
and a Y axis together with positive area, `get_avg_mpp` propagates the
untyped `ValueError` of `_get_biggest_series` instead of the typed
spacing error. -/
theorem C10_no_series (s : Slide)
    (hos : _get_mpp_openslide s.props = Except.ok (none, none))
    (hall : ∀ sr ∈ s.tif, ¬hasXY sr ∨ seriesArea sr = 0) :
    get_avg_mpp s = Except.error PyError.valueErrorNoSeries ∧
    PyError.valueErrorNoSeries ≠ PyError.cannotReadSpacing := by
  have hbig : _get_biggest_series s.tif =
      Except.error PyError.valueErrorNoSeries := by
    unfold _get_biggest_series
    rw [biggestSeriesGo_all_bad s.tif 0 0 none hall]
  have htiff : _get_mpp_tiff s.tif =
      Except.error PyError.valueErrorNoSeries := by
    unfold _get_mpp_tiff
    simp only [hbig]
  have hfb := get_avg_mpp_os_fallback s (none, none) hos (Or.inl rfl)
  constructor
  · rw [hfb]
    unfold avgFromTiff
    simp only [htiff]
  · intro hc
    injection hc

/-- Witness for C10 at a concrete slide whose only series is 2D but has
zero area. -/
theorem C10_witness :
    get_avg_mpp slideZeroArea = Except.error PyError.valueErrorNoSeries ∧
    PyError.valueErrorNoSeries ≠ PyError.cannotReadSpacing :=
  C10_no_series slideZeroArea rfl (by decide)

/-- Facts about a normal `_get_mpp_tiff` return: an axis carries a value
only when its tag's denominator is trusted (at least 100), and an
untrusted axis carries none. -/
theorem tiff_ok_facts (tif : List TiffSeries) (j : ℕ) (sj : TiffSeries)
    (hj : _get_biggest_series tif = Except.ok j)
    (hsj : tif[j]? = some sj)
    (ux uy : Option ℚ) (hok : _get_mpp_tiff tif = Except.ok (ux, uy)) :
    (ux.isSome → 100 ≤ sj.xResolution.2) ∧
    (uy.isSome → 100 ≤ sj.yResolution.2) ∧
    (sj.xResolution.2 < 100 → ux = none) ∧
    (sj.yResolution.2 < 100 → uy = none) := by
  rw [_get_mpp_tiff_eq tif j sj hj hsj] at hok
  unfold tiffFromSeries at hok
  cases hu : resunit_to_microns sj.resolutionUnit with
  | none =>
    simp only [hu] at hok
    injection hok
  | some unit =>
    simp only [hu] at hok
    cases hx : axisMpp unit sj.xResolution with
    | error ex =>
      simp only [hx] at hok
      injection hok
    | ok vx =>
      simp only [hx] at hok
      cases hy : axisMpp unit sj.yResolution with
      | error ey =>
        simp only [hy] at hok
        injection hok
      | ok vy =>
        simp only [hy] at hok
        injection hok with h'
        injection h' with hvx hvy
        subst hvx
        subst hvy
        have hxspec := axisMpp_ok unit sj.xResolution vx hx
        have hyspec := axisMpp_ok unit sj.yResolution vy hy
        refine ⟨?_, ?_, fun hlt => hxspec.2 hlt, fun hlt => hyspec.2 hlt⟩
        · intro hsome
          by_contra hlt
          rw [hxspec.2 (by omega)] at hsome
          simp at hsome
        · intro hsome
          by_contra hlt
          rw [hyspec.2 (by omega)] at hsome
          simp at hsome

/-- C5: a TIFF resolution tag is used only when its denominator is at
least 100; an axis with an untrusted tag yields no spacing value; and
when either axis of the selected series is untrusted and OpenSlide gave
no values, `get_avg_mpp` fails. -/
theorem C5_denominator_threshold (s : Slide) (j : ℕ) (sj : TiffSeries)
    (hj : _get_biggest_series s.tif = Except.ok j)
    (hsj : s.tif[j]? = some sj) :
    (∀ ux uy, _get_mpp_tiff s.tif = Except.ok (ux, uy) →
      (ux.isSome → 100 ≤ sj.xResolution.2) ∧
      (uy.isSome → 100 ≤ sj.yResolution.2) ∧
      (sj.xResolution.2 < 100 → ux = none) ∧
      (sj.yResolution.2 < 100 → uy = none)) ∧
    (_get_mpp_openslide s.props = Except.ok (none, none) →
      (sj.xResolution.2 < 100 ∨ sj.yResolution.2 < 100) →
      ∃ e, get_avg_mpp s = Except.error e) := by
  constructor
  · intro ux uy hok
    exact tiff_ok_facts s.tif j sj hj hsj ux uy hok
  · intro hos hden
    have hfb := get_avg_mpp_os_fallback s (none, none) hos (Or.inl rfl)
    rw [hfb]
    cases ht : _get_mpp_tiff s.tif with
    | error e =>
      refine ⟨e, ?_⟩
      unfold avgFromTiff
      simp only [ht]
    | ok pr =>
      obtain ⟨ux, uy⟩ := pr
      have hfacts := tiff_ok_facts s.tif j sj hj hsj ux uy ht
      refine ⟨PyError.cannotReadSpacing, ?_⟩
      rcases hden with hlt | hlt
      · exact avgFromTiff_notboth s.tif (ux, uy) ht
          (Or.inl (hfacts.2.2.1 hlt))
      · exact avgFromTiff_notboth s.tif (ux, uy) ht
          (Or.inr (hfacts.2.2.2 hlt))

/-- Witness for C5 at a concrete slide. -/
theorem C5_witness :
    ((∀ (ux uy : Option ℚ),
      _get_mpp_tiff slideUntrustedX.tif = Except.ok (ux, uy) →
      (ux.isSome → 100 ≤ (1 : ℕ)) ∧
      (uy.isSome → 100 ≤ (100 : ℕ)) ∧
      ((1 : ℕ) < 100 → ux = none) ∧
      ((100 : ℕ) < 100 → uy = none)) ∧
    (_get_mpp_openslide slideUntrustedX.props = Except.ok (none, none) →
      ((1 : ℕ) < 100 ∨ (100 : ℕ) < 100) →
      ∃ e, get_avg_mpp slideUntrustedX = Except.error e)) ∧
    (∃ e, get_avg_mpp slideUntrustedX = Except.error e) := by
  have h := C5_denominator_threshold slideUntrustedX 0
    ⟨[80, 80], ['Y', 'X'], 3, (5, 1), (4000000, 100)⟩ (by decide) rfl
  exact ⟨h, h.2 rfl (Or.inl (by decide))⟩

/-- The arithmetic of C6's concrete scenario: 40000 pixels per
centimeter, i.e. numerator = 40000 * denominator, gives a quarter
micrometer per pixel. -/
theorem cm40000_quarter (n d : ℕ) (hd : 100 ≤ d)
    (h40 : (n : ℚ) = 40000 * (d : ℚ)) :
    10000 * (d : ℚ) / (n : ℚ) = 1/4 := by
  have hd0 : (d : ℚ) ≠ 0 := Nat.cast_ne_zero.mpr (by omega)
  rw [h40]
  field_simp
  ring

/-- C6: the unit table maps inch (2) to 25400 µm and centimeter (3) to
10000 µm; a trusted axis tag `(numerator, denominator)` yields
`unit * denominator / numerator` µm/px; and 40000 pixels per centimeter
on both axes yields 0.25 µm/px for both. -/
theorem C6_unit_table (tif : List TiffSeries) (j : ℕ) (sj : TiffSeries)
    (hj : _get_biggest_series tif = Except.ok j)
    (hsj : tif[j]? = some sj)
    (hxd : 100 ≤ sj.xResolution.2) (hyd : 100 ≤ sj.yResolution.2)
    (hxn : sj.xResolution.1 ≠ 0) (hyn : sj.yResolution.1 ≠ 0) :
    (sj.resolutionUnit = 2 →
      _get_mpp_tiff tif = Except.ok
        (some (25400 * (sj.xResolution.2 : ℚ) / (sj.xResolution.1 : ℚ)),
         some (25400 * (sj.yResolution.2 : ℚ) / (sj.yResolution.1 : ℚ)))) ∧
    (sj.resolutionUnit = 3 →
      _get_mpp_tiff tif = Except.ok
        (some (10000 * (sj.xResolution.2 : ℚ) / (sj.xResolution.1 : ℚ)),
         some (10000 * (sj.yResolution.2 : ℚ) / (sj.yResolution.1 : ℚ)))) ∧
    (sj.resolutionUnit = 3 →
      (sj.xResolution.1 : ℚ) = 40000 * (sj.xResolution.2 : ℚ) →
      (sj.yResolution.1 : ℚ) = 40000 * (sj.yResolution.2 : ℚ) →
      _get_mpp_tiff tif = Except.ok (some (1/4), some (1/4))) := by
  have hbody : ∀ u : ℚ, resunit_to_microns sj.resolutionUnit = some u →
      _get_mpp_tiff tif = Except.ok
        (some (u * (sj.xResolution.2 : ℚ) / (sj.xResolution.1 : ℚ)),
         some (u * (sj.yResolution.2 : ℚ) / (sj.yResolution.1 : ℚ))) := by
    intro u hu
    rw [_get_mpp_tiff_eq tif j sj hj hsj]
    unfold tiffFromSeries
    simp only [hu, axisMpp_value u sj.xResolution hxd hxn,
      axisMpp_value u sj.yResolution hyd hyn]
  refine ⟨?_, ?_, ?_⟩
  · intro h2
    exact hbody 25400 (by simp [resunit_to_microns, h2])
  · intro h3
    exact hbody 10000 (by simp [resunit_to_microns, h3])
  · intro h3 hx40 hy40
    rw [hbody 10000 (by simp [resunit_to_microns, h3])]
    rw [cm40000_quarter sj.xResolution.1 sj.xResolution.2 hxd hx40]
    rw [cm40000_quarter sj.yResolution.1 sj.yResolution.2 hyd hy40]

/-- Witness for C6 at the concrete series list. -/
theorem C6_witness :
    _get_mpp_tiff cmTif = Except.ok (some (1/4), some (1/4)) := by
  have h := C6_unit_table cmTif 0
    ⟨[100, 100], ['Y', 'X'], 3, (4000000, 100), (4000000, 100)⟩
    (by decide) rfl (by decide) (by decide) (by decide) (by decide)
  exact h.2.2 rfl (by norm_num) (by norm_num)

/-- C8: when exactly one OpenSlide MPP property is present, the helper
returns `(None, None)` — the lone axis is discarded — and `get_avg_mpp`
equals the pure TIFF fallback (the same as on a slide with no OpenSlide
MPP metadata at all), so axis values from the two sources are never
combined. -/
theorem C8_single_axis (s : Slide)
    (h : s.props.mpp_x.isSome ≠ s.props.mpp_y.isSome) :
    _get_mpp_openslide s.props = Except.ok (none, none) ∧
    get_avg_mpp s = avgFromTiff s.tif ∧
    get_avg_mpp s = get_avg_mpp ⟨⟨none, none⟩, s.tif⟩ := by
  obtain ⟨⟨mx, my⟩, tif⟩ := s
  have hos : _get_mpp_openslide ⟨mx, my⟩ = Except.ok (none, none) := by
    cases mx with
    | none =>
      cases my with
      | none => exact absurd rfl h
      | some vy => rfl
    | some vx =>
      cases my with
      | none => rfl
      | some vy => exact absurd rfl h
  refine ⟨hos, ?_, ?_⟩
  · exact get_avg_mpp_os_fallback ⟨⟨mx, my⟩, tif⟩ (none, none) hos (Or.inl rfl)
  · have h1 := get_avg_mpp_os_fallback ⟨⟨mx, my⟩, tif⟩ (none, none) hos
      (Or.inl rfl)
    have h2 : get_avg_mpp ⟨⟨none, none⟩, tif⟩ = avgFromTiff tif := rfl
    rw [h1, h2]

/-- Witness for C8 at a concrete slide. -/
theorem C8_witness :
    _get_mpp_openslide slideOnlyX.props = Except.ok (none, none) ∧
    get_avg_mpp slideOnlyX = avgFromTiff slideOnlyX.tif ∧
    get_avg_mpp slideOnlyX = get_avg_mpp ⟨⟨none, none⟩, slideOnlyX.tif⟩ :=
  C8_single_axis slideOnlyX (by decide)

set_option maxRecDepth 100000 in
/-- C7: on a 4096×4096 slide of native spacing 0.25 µm/px with requested
patch size 350 at spacing 0.25, the effective step is 350, the grid has
ceil(4096/350) = 12 steps per axis and 144 origins, the last origin per
axis is 3850 = 350·11, and every read tile is exactly 350×350 —
beyond-bound reads are padded, never cropped. -/
theorem C7_grid_350 :
    effectivePatchSize 350 (1/4) (1/4) = 350 ∧
    (4096 + 350 - 1) / 350 = 12 ∧
    (gridOrigins1D 4096 350).length = 12 ∧
    (gridOrigins2D 4096 4096 350).length = 144 ∧
    (gridOrigins1D 4096 350).getLast? = some 3850 ∧
    (3850 : ℕ) = 350 * 11 ∧
    ∀ p : ℕ × ℕ, p ∈ gridOrigins2D 4096 4096 350 →
      ∀ (img : ℕ → ℕ → ℕ) (bg : ℕ),
        (readRegion 4096 4096 p.1 p.2 350 350 img bg).length = 350 ∧
        ∀ row ∈ readRegion 4096 4096 p.1 p.2 350 350 img bg,
          row.length = 350 := by
  refine ⟨?_, by norm_num, by decide, by decide, by decide, by norm_num, ?_⟩
  · unfold effectivePatchSize
    norm_num
  · intro p hp img bg
    constructor
    · simp [readRegion]
    · intro row hrow
      simp only [readRegion, List.mem_map] at hrow
      obtain ⟨r, -, hr⟩ := hrow
      rw [← hr]
      simp

set_option maxRecDepth 100000 in
/-- Witness for C7: the tile at the last grid origin (3850, 3850), which
overhangs the 4096-pixel boundary, still reads as exactly 350 rows. -/
theorem C7_witness :
    (readRegion 4096 4096 3850 3850 350 350 (fun _ _ => 0) 0).length =
      350 :=
  (C7_grid_350.2.2.2.2.2.2 (3850, 3850) (by decide) (fun _ _ => 0) 0).1
